import Mathlib

/-!
# Verification of the moltworker synthetic-monitoring engine

Shallow embedding of the monitoring core of `isaacrowntree/moltworker`
(`src/monitoring/*.ts`): the health-state machine (`computeTransition`),
empty-state construction (`createEmptyCheckState`), tag-based channel
routing (`shouldChannelReceive`), the check runner's outcome construction
(`runCheck`), the bounded history append performed by
`runMonitoringChecks`, and alert fan-out (`dispatchAlerts`).

TypeScript `T | undefined` / `T | null` fields are embedded as `Option`;
ISO timestamp strings produced by `new Date().toISOString()` are threaded
as explicit `String` parameters to keep the functions pure.
-/

namespace Moltworker

/-- `CheckStatus` from `src/monitoring/types.ts`. -/
inductive CheckStatus
  | unknown
  | healthy
  | degraded
  | unhealthy
deriving DecidableEq, Repr

/-- `CheckType` from `src/monitoring/types.ts`. -/
inductive CheckType
  | api
  | browser
deriving DecidableEq, Repr

/-- `AlertType` from `src/monitoring/types.ts`. -/
inductive AlertType
  | failure
  | recovery
deriving DecidableEq, Repr

/-- `AlertChannelType` from `src/monitoring/types.ts`. -/
inductive AlertChannelType
  | slack
  | telegram
  | email
deriving DecidableEq, Repr

/-- `HistoryEntry` from `src/monitoring/types.ts`. -/
structure HistoryEntry where
  timestamp : String
  status : CheckStatus
  responseTimeMs : Nat
  error : Option String
deriving DecidableEq, Repr

/-- `CheckState` from `src/monitoring/types.ts`. -/
structure CheckState where
  id : String
  status : CheckStatus
  consecutiveFailures : Nat
  lastCheck : Option String
  lastSuccess : Option String
  lastError : Option String
  responseTimeMs : Option Nat
  history : List HistoryEntry
deriving DecidableEq, Repr

/-- `CheckResult` from `src/monitoring/types.ts`. -/
structure CheckResult where
  id : String
  success : Bool
  statusCode : Option Nat
  responseTimeMs : Nat
  error : Option String
deriving DecidableEq, Repr

/-- `CheckConfig` from `src/monitoring/types.ts`. -/
structure CheckConfig where
  id : String
  name : String
  type : CheckType
  url : String
  expectedStatus : Option Nat := none
  timeoutMs : Option Nat := none
  failureThreshold : Option Nat := none
  tags : Option (List String) := none
deriving DecidableEq, Repr

/-- `AlertChannel` from `src/monitoring/types.ts`. -/
structure AlertChannel where
  type : AlertChannelType
  enabled : Bool
  tags : Option (List String) := none
deriving DecidableEq, Repr

/-- `createEmptyCheckState` from `src/monitoring/state.ts`. -/
def createEmptyCheckState (id : String) : CheckState :=
  { id := id
    status := .unknown
    consecutiveFailures := 0
    lastCheck := none
    lastSuccess := none
    lastError := none
    responseTimeMs := none
    history := [] }

/-- Result record of `computeTransition` (`{ newState, alertType }`). -/
structure TransitionResult where
  newState : CheckState
  alertType : Option AlertType
deriving DecidableEq, Repr

/-- `computeTransition` from `src/monitoring/alerts.ts`.  The call to
`new Date().toISOString()` is passed in as `now`. -/
def computeTransition (state : CheckState) (result : CheckResult)
    (threshold : Nat) (now : String) : TransitionResult :=
  let updated : CheckState :=
    { state with
        history := state.history
        lastCheck := some now
        responseTimeMs := some result.responseTimeMs }
  if result.success then
    let wasUnhealthy := state.status = CheckStatus.unhealthy
    { newState :=
        { updated with
            status := .healthy
            consecutiveFailures := 0
            lastSuccess := some now
            lastError := state.lastError }
      alertType := if wasUnhealthy then some .recovery else none }
  else
    let newFailures := state.consecutiveFailures + 1
    if newFailures ≥ threshold then
      let wasAlreadyUnhealthy := state.status = CheckStatus.unhealthy
      { newState :=
          { updated with
              status := .unhealthy
              consecutiveFailures := newFailures
              lastError := result.error }
        alertType := if wasAlreadyUnhealthy then none else some .failure }
    else
      { newState :=
          { updated with
              status := .degraded
              consecutiveFailures := newFailures
              lastError := result.error }
        alertType := none }

end Moltworker

namespace Moltworker

/-- C1: on a failing probe result, `computeTransition` increments
`consecutiveFailures` by one; at or above the threshold the status becomes
`unhealthy` with a `failure` alert iff the prior status was not already
`unhealthy`; below the threshold the status is `degraded` with no alert. -/
theorem computeTransition_failure_spec (state : CheckState) (result : CheckResult)
    (threshold : Nat) (now : String) (hfail : result.success = false) :
    (computeTransition state result threshold now).newState.consecutiveFailures
        = state.consecutiveFailures + 1
    ∧ (state.consecutiveFailures + 1 ≥ threshold →
        (computeTransition state result threshold now).newState.status = .unhealthy
        ∧ ((computeTransition state result threshold now).alertType = some .failure
            ↔ state.status ≠ .unhealthy))
    ∧ (state.consecutiveFailures + 1 < threshold →
        (computeTransition state result threshold now).newState.status = .degraded
        ∧ (computeTransition state result threshold now).alertType = none) := by
  unfold computeTransition
  simp only [hfail, Bool.false_eq_true, if_false]
  refine ⟨?_, ?_, ?_⟩
  · split <;> simp
  · intro hth
    constructor
    · simp [hth]
    · by_cases hu : state.status = CheckStatus.unhealthy <;> simp [hth, hu]
  · intro hlt
    have hth : ¬ state.consecutiveFailures + 1 ≥ threshold := by omega
    simp [hth]

/-- Witness for C1: with threshold 1, a first failure from `unknown`
yields status `unhealthy` and a `failure` alert. -/
theorem computeTransition_failure_spec_witness :
    (({ id := "t", success := false, statusCode := some 500,
        responseTimeMs := 10, error := some "boom" } : CheckResult).success = false)
    ∧ ((computeTransition (createEmptyCheckState "t")
          { id := "t", success := false, statusCode := some 500,
            responseTimeMs := 10, error := some "boom" } 1 "now").newState.status
        = .unhealthy
      ∧ (computeTransition (createEmptyCheckState "t")
          { id := "t", success := false, statusCode := some 500,
            responseTimeMs := 10, error := some "boom" } 1 "now").alertType
        = some .failure) := by
  have h := computeTransition_failure_spec (createEmptyCheckState "t")
    { id := "t", success := false, statusCode := some 500,
      responseTimeMs := 10, error := some "boom" } 1 "now" rfl
  have hth : (createEmptyCheckState "t").consecutiveFailures + 1 ≥ 1 := by decide
  exact ⟨rfl, (h.2.1 hth).1, (h.2.1 hth).2.mpr (by decide)⟩

/-- C2: on a successful probe result, `computeTransition` sets the status
to `healthy`, resets `consecutiveFailures` to 0, and returns a `recovery`
alert iff the prior status was exactly `unhealthy`. -/
theorem computeTransition_success_spec (state : CheckState) (result : CheckResult)
    (threshold : Nat) (now : String) (hok : result.success = true) :
    (computeTransition state result threshold now).newState.status = .healthy
    ∧ (computeTransition state result threshold now).newState.consecutiveFailures = 0
    ∧ ((computeTransition state result threshold now).alertType = some .recovery
        ↔ state.status = .unhealthy) := by
  unfold computeTransition
  by_cases hu : state.status = CheckStatus.unhealthy <;> simp [hok, hu]

/-- Witness for C2: a successful result from a `degraded` state produces
status `healthy` with no alert. -/
theorem computeTransition_success_spec_witness :
    (({ id := "t", success := true, statusCode := some 200,
        responseTimeMs := 5, error := none } : CheckResult).success = true)
    ∧ ((computeTransition
          { createEmptyCheckState "t" with status := .degraded, consecutiveFailures := 1 }
          { id := "t", success := true, statusCode := some 200,
            responseTimeMs := 5, error := none } 2 "now").newState.status = .healthy
      ∧ (computeTransition
          { createEmptyCheckState "t" with status := .degraded, consecutiveFailures := 1 }
          { id := "t", success := true, statusCode := some 200,
            responseTimeMs := 5, error := none } 2 "now").alertType = none) := by
  have h := computeTransition_success_spec
    { createEmptyCheckState "t" with status := .degraded, consecutiveFailures := 1 }
    { id := "t", success := true, statusCode := some 200,
      responseTimeMs := 5, error := none } 2 "now" rfl
  exact ⟨rfl, h.1, by decide⟩

/-- C3: the `healthy → consecutiveFailures = 0` invariant: it holds of
the empty initial state, and the state returned by every
`computeTransition` step satisfies it (unconditionally: a successful
result forces `consecutiveFailures := 0`, and a failing result never
produces a `healthy` status). -/
theorem healthy_invariant_preserved :
    (∀ id : String, (createEmptyCheckState id).status = .healthy →
      (createEmptyCheckState id).consecutiveFailures = 0)
    ∧ ∀ (state : CheckState) (result : CheckResult) (threshold : Nat) (now : String),
        (computeTransition state result threshold now).newState.status = .healthy →
        (computeTransition state result threshold now).newState.consecutiveFailures = 0 := by
  constructor
  · intro id _
    rfl
  · intro state result threshold now
    unfold computeTransition
    cases hs : result.success
    · by_cases hth : state.consecutiveFailures + 1 ≥ threshold <;> simp [hth]
    · simp

/-- C10: `computeTransition` never returns an `unknown` status — the
result of every evaluation is `healthy`, `degraded` or `unhealthy` — and
the `unknown` status arises only from `createEmptyCheckState`, which
carries it. -/
theorem computeTransition_never_unknown :
    (∀ (state : CheckState) (result : CheckResult) (threshold : Nat) (now : String),
        ((computeTransition state result threshold now).newState.status = .healthy
          ∨ (computeTransition state result threshold now).newState.status = .degraded
          ∨ (computeTransition state result threshold now).newState.status = .unhealthy)
        ∧ (computeTransition state result threshold now).newState.status ≠ .unknown)
    ∧ ∀ id : String, (createEmptyCheckState id).status = .unknown := by
  constructor
  · intro state result threshold now
    unfold computeTransition
    cases hs : result.success
    · by_cases hth : state.consecutiveFailures + 1 ≥ threshold <;> simp [hth]
    · simp
  · intro id
    rfl

/-- Helper embedding TypeScript `!xs || xs.length === 0` on an optional
tag list. -/
def tagsAbsentOrEmpty : Option (List String) → Bool
  | none => true
  | some l => l.isEmpty

/-- `shouldChannelReceive` from `src/monitoring/alerts.ts`. -/
def shouldChannelReceive (channel : AlertChannel) (check : CheckConfig) : Bool :=
  if channel.enabled = false then false
  else if tagsAbsentOrEmpty channel.tags then true
  else if tagsAbsentOrEmpty check.tags then false
  else (channel.tags.getD []).any (fun tag => (check.tags.getD []).contains tag)

/-- C6: an enabled channel with no configured tags (or an empty tag list)
receives every alert; an enabled tag-scoped channel matches iff the check
shares at least one tag with it — so a check with no tags never matches a
tag-scoped channel. -/
theorem shouldChannelReceive_spec (channel : AlertChannel) (check : CheckConfig)
    (hen : channel.enabled = true) :
    (tagsAbsentOrEmpty channel.tags = true → shouldChannelReceive channel check = true)
    ∧ (tagsAbsentOrEmpty channel.tags = false →
        (shouldChannelReceive channel check = true
          ↔ ∃ t, t ∈ channel.tags.getD [] ∧ t ∈ check.tags.getD [])) := by
  constructor
  · intro habs
    simp [shouldChannelReceive, hen, habs]
  · intro habs
    unfold shouldChannelReceive
    simp only [hen, habs, Bool.true_eq_false, if_false, Bool.false_eq_true]
    by_cases hck : tagsAbsentOrEmpty check.tags = true
    · cases hcheck : check.tags with
      | none =>
        simp [hck]
      | some l =>
        have hl : l = [] := by
          simpa [tagsAbsentOrEmpty, hcheck, List.isEmpty_iff] using hck
        simp [hck, hl]
    · simp only [hck, if_false, Bool.false_eq_true]
      rw [List.any_eq_true]
      constructor
      · rintro ⟨t, htc, htk⟩
        exact ⟨t, htc, by simpa using htk⟩
      · rintro ⟨t, htc, htk⟩
        exact ⟨t, htc, by simpa using htk⟩

/-- Witness for C6: a channel tagged `production` rejects a `staging`
check and accepts a `production, web` check; an untagged enabled channel
accepts everything. -/
theorem shouldChannelReceive_spec_witness :
    (({ type := .telegram, enabled := true,
        tags := some ["production"] } : AlertChannel).enabled = true)
    ∧ shouldChannelReceive
        { type := .telegram, enabled := true, tags := some ["production"] }
        { id := "c", name := "c", type := .api, url := "u",
          tags := some ["staging"] } = false
    ∧ shouldChannelReceive
        { type := .telegram, enabled := true, tags := some ["production"] }
        { id := "c", name := "c", type := .api, url := "u",
          tags := some ["production", "web"] } = true := by
  refine ⟨rfl, ?_, ?_⟩
  · have h := (shouldChannelReceive_spec
      { type := .telegram, enabled := true, tags := some ["production"] }
      { id := "c", name := "c", type := .api, url := "u",
        tags := some ["staging"] } rfl).2 rfl
    have hno : ¬ ∃ t, t ∈ (some ["production"] : Option (List String)).getD []
        ∧ t ∈ (some ["staging"] : Option (List String)).getD [] := by
      rintro ⟨t, ht1, ht2⟩
      simp at ht1 ht2
      rw [ht1] at ht2
      exact absurd ht2 (by decide)
    exact Bool.eq_false_iff.mpr (fun htrue => hno (h.mp htrue))
  · have h := (shouldChannelReceive_spec
      { type := .telegram, enabled := true, tags := some ["production"] }
      { id := "c", name := "c", type := .api, url := "u",
        tags := some ["production", "web"] } rfl).2 rfl
    exact h.mpr ⟨"production", by decide, by decide⟩

/-- The append-and-trim performed on `newState.history` by
`runMonitoringChecks` in `src/monitoring/index.ts`: `push(entry)` followed
by `slice(-288)` when the length exceeds 288. -/
def appendHistoryEntry (history : List HistoryEntry) (entry : HistoryEntry) :
    List HistoryEntry :=
  let pushed := history ++ [entry]
  if pushed.length > 288 then pushed.drop (pushed.length - 288) else pushed

/-- The per-check state-update step of `runMonitoringChecks`
(`src/monitoring/index.ts`): `computeTransition` followed by recording one
history entry.  `now` is the timestamp taken inside `computeTransition`,
`nowEntry` the (separately taken) timestamp of the history entry. -/
def evaluateCheck (checkState : CheckState) (result : CheckResult)
    (threshold : Nat) (now nowEntry : String) : TransitionResult :=
  let t := computeTransition checkState result threshold now
  let entry : HistoryEntry :=
    { timestamp := nowEntry
      status := t.newState.status
      responseTimeMs := result.responseTimeMs
      error := result.error }
  { t with newState := { t.newState with
      history := appendHistoryEntry t.newState.history entry } }

theorem computeTransition_preserves_history (state : CheckState)
    (result : CheckResult) (threshold : Nat) (now : String) :
    (computeTransition state result threshold now).newState.history
      = state.history := by
  unfold computeTransition
  cases hs : result.success
  · by_cases hth : state.consecutiveFailures + 1 ≥ threshold <;> simp [hth]
  · simp

/-- C4: each evaluation appends exactly one history entry
`{timestamp, resulting status, elapsed time, error-or-null}`; a history of
length at most 288 stays at most 288 after the append-and-trim; below
capacity the entry is appended with nothing dropped, and at capacity 288
exactly the oldest entry is dropped, preserving the order of the rest. -/
theorem evaluateCheck_history_spec (checkState : CheckState)
    (result : CheckResult) (threshold : Nat) (now nowEntry : String)
    (hlen : checkState.history.length ≤ 288) :
    ((evaluateCheck checkState result threshold now nowEntry).newState.history.length ≤ 288)
    ∧ (checkState.history.length < 288 →
        (evaluateCheck checkState result threshold now nowEntry).newState.history
          = checkState.history
            ++ [{ timestamp := nowEntry
                  status := (computeTransition checkState result threshold now).newState.status
                  responseTimeMs := result.responseTimeMs
                  error := result.error }])
    ∧ (checkState.history.length = 288 →
        (evaluateCheck checkState result threshold now nowEntry).newState.history
          = checkState.history.tail
            ++ [{ timestamp := nowEntry
                  status := (computeTransition checkState result threshold now).newState.status
                  responseTimeMs := result.responseTimeMs
                  error := result.error }]) := by
  have hhist := computeTransition_preserves_history checkState result threshold now
  refine ⟨?_, ?_, ?_⟩
  · show (appendHistoryEntry _ _).length ≤ 288
    rw [hhist]
    unfold appendHistoryEntry
    dsimp only
    split
    · simp
      omega
    · simp at *
      omega
  · intro hlt
    show appendHistoryEntry _ _ = _
    rw [hhist]
    unfold appendHistoryEntry
    have hcond : ¬ (checkState.history
        ++ [({ timestamp := nowEntry
               status := (computeTransition checkState result threshold now).newState.status
               responseTimeMs := result.responseTimeMs
               error := result.error } : HistoryEntry)]).length > 288 := by
      simp
      omega
    dsimp only
    rw [if_neg hcond]
  · intro heq
    show appendHistoryEntry _ _ = _
    rw [hhist]
    unfold appendHistoryEntry
    have hcond : (checkState.history
        ++ [({ timestamp := nowEntry
               status := (computeTransition checkState result threshold now).newState.status
               responseTimeMs := result.responseTimeMs
               error := result.error } : HistoryEntry)]).length > 288 := by
      simp [heq]
    dsimp only
    rw [if_pos hcond]
    have hdroplen : (checkState.history
        ++ [({ timestamp := nowEntry
               status := (computeTransition checkState result threshold now).newState.status
               responseTimeMs := result.responseTimeMs
               error := result.error } : HistoryEntry)]).length - 288 = 1 := by
      simp [heq]
    rw [hdroplen]
    rw [List.drop_append_of_le_length (by omega)]
    simp [List.drop_one]

/-- Witness for C4: evaluating a check with an empty history appends
exactly the one entry for this evaluation. -/
theorem evaluateCheck_history_spec_witness :
    ((createEmptyCheckState "t").history.length ≤ 288)
    ∧ (evaluateCheck (createEmptyCheckState "t")
        { id := "t", success := false, statusCode := some 503,
          responseTimeMs := 7, error := some "Expected status 200, got 503" }
        2 "now" "now2").newState.history
      = [{ timestamp := "now2", status := .degraded,
           responseTimeMs := 7, error := some "Expected status 200, got 503" }] := by
  have h := evaluateCheck_history_spec (createEmptyCheckState "t")
    { id := "t", success := false, statusCode := some 503,
      responseTimeMs := 7, error := some "Expected status 200, got 503" }
    2 "now" "now2" (by decide)
  refine ⟨by decide, ?_⟩
  rw [h.2.1 (by decide)]
  decide

/-- Whether `pat` occurs at the head of `s` (character lists). -/
def charsStartWith : List Char → List Char → Bool
  | _, [] => true
  | [], _ :: _ => false
  | c :: cs, p :: ps => c = p && charsStartWith cs ps

/-- Whether `pat` occurs anywhere in `s` (character lists). -/
def charsContain : List Char → List Char → Bool
  | s, pat =>
    charsStartWith s pat ||
      match s with
      | [] => false
      | _ :: rest => charsContain rest pat

/-- TypeScript `String.prototype.includes`: true iff `pat` occurs as a
substring of `s`. -/
def stringIncludes (s pat : String) : Bool :=
  charsContain s.toList pat.toList

/-- The result of the awaited `fetch(...)` inside `runCheck`
(`src/monitoring/runner.ts`): either a response carrying an HTTP status,
or a rejection carrying the thrown error's message (a non-`Error` throw
surfaces as the string `Unknown error`; a cancellation by the per-attempt
timeout's `AbortController` surfaces as a message containing `abort`). -/
inductive FetchOutcome
  | response (status : Nat)
  | rejected (message : String)
deriving DecidableEq, Repr

/-- `runCheck` from `src/monitoring/runner.ts`, with the network
interaction abstracted: `fetchResult` is what the awaited `fetch` call
produced and `responseTimeMs` the measured elapsed time. -/
def runCheck (check : CheckConfig) (timeoutMs : Nat) (responseTimeMs : Nat)
    (fetchResult : FetchOutcome) : CheckResult :=
  match fetchResult with
  | .response status =>
      let expectedStatus := check.expectedStatus.getD 200
      if status = expectedStatus then
        { id := check.id, success := true, statusCode := some status,
          responseTimeMs := responseTimeMs, error := none }
      else
        { id := check.id, success := false, statusCode := some status,
          responseTimeMs := responseTimeMs,
          error := some ("Expected status " ++ toString expectedStatus
            ++ ", got " ++ toString status) }
  | .rejected message =>
      let isTimeout := stringIncludes message "abort"
      { id := check.id, success := false, statusCode := none,
        responseTimeMs := responseTimeMs,
        error := some (if isTimeout
          then "Timeout after " ++ toString timeoutMs ++ "ms"
          else message) }

/-- C7: a rejected probe attempt yields `success = false`; when the
rejection came from the timeout cancellation (message containing `abort`)
the error string is the distinguishable `Timeout after <timeoutMs>ms`,
and a non-timeout transport failure surfaces the underlying message. -/
theorem runCheck_rejected_spec (check : CheckConfig)
    (timeoutMs responseTimeMs : Nat) (message : String) :
    ((runCheck check timeoutMs responseTimeMs (.rejected message)).success = false)
    ∧ (stringIncludes message "abort" = true →
        (runCheck check timeoutMs responseTimeMs (.rejected message)).error
          = some ("Timeout after " ++ toString timeoutMs ++ "ms"))
    ∧ (stringIncludes message "abort" = false →
        (runCheck check timeoutMs responseTimeMs (.rejected message)).error
          = some message) := by
  refine ⟨rfl, ?_, ?_⟩
  · intro habort
    simp [runCheck, habort]
  · intro habort
    simp [runCheck, habort]

/-- Witness for C7: an abort rejection with timeout 5000 reports
`Timeout after 5000ms`, and a DNS failure reports its own message. -/
theorem runCheck_rejected_spec_witness :
    (stringIncludes "The operation was aborted" "abort" = true)
    ∧ (runCheck { id := "c", name := "c", type := .api, url := "u" }
        5000 12 (.rejected "The operation was aborted")).error
      = some "Timeout after 5000ms"
    ∧ (runCheck { id := "c", name := "c", type := .api, url := "u" }
        5000 12 (.rejected "getaddrinfo ENOTFOUND example.invalid")).error
      = some "getaddrinfo ENOTFOUND example.invalid" := by
  refine ⟨by decide, ?_, ?_⟩
  · exact (runCheck_rejected_spec { id := "c", name := "c", type := .api, url := "u" }
      5000 12 "The operation was aborted").2.1 (by decide)
  · exact (runCheck_rejected_spec { id := "c", name := "c", type := .api, url := "u" }
      5000 12 "getaddrinfo ENOTFOUND example.invalid").2.2 (by decide)

/-- C8: on a response, the pass/fail predicate is `status equals
expectedStatus`, defaulting to 200 when no assertion is configured; the
error string is `null` on success and names the expected and actual
status on failure. -/
theorem runCheck_response_spec (check : CheckConfig)
    (timeoutMs responseTimeMs status : Nat) :
    ((runCheck check timeoutMs responseTimeMs (.response status)).success = true
        ↔ status = check.expectedStatus.getD 200)
    ∧ (check.expectedStatus = none →
        ((runCheck check timeoutMs responseTimeMs (.response status)).success = true
          ↔ status = 200))
    ∧ (status = check.expectedStatus.getD 200 →
        (runCheck check timeoutMs responseTimeMs (.response status)).error = none)
    ∧ (status ≠ check.expectedStatus.getD 200 →
        (runCheck check timeoutMs responseTimeMs (.response status)).error
          = some ("Expected status " ++ toString (check.expectedStatus.getD 200)
              ++ ", got " ++ toString status)) := by
  refine ⟨?_, ?_, ?_, ?_⟩
  · by_cases hs : status = check.expectedStatus.getD 200 <;> simp [runCheck, hs]
  · intro hnone
    by_cases hs : status = check.expectedStatus.getD 200
    · rw [hnone] at hs
      simp only [Option.getD_none] at hs
      simp [runCheck, hnone, hs]
    · rw [hnone] at hs
      simp only [Option.getD_none] at hs
      simp [runCheck, hnone, hs]
  · intro hs
    simp [runCheck, hs]
  · intro hs
    simp [runCheck, hs]

/-- Witness for C8: with no configured `expectedStatus`, a 200 response
succeeds with a `null` error and a 503 response fails with the
descriptive error. -/
theorem runCheck_response_spec_witness :
    ((runCheck { id := "c", name := "c", type := .api, url := "u" }
        5000 3 (.response 200)).success = true)
    ∧ ((runCheck { id := "c", name := "c", type := .api, url := "u" }
        5000 3 (.response 200)).error = none)
    ∧ ((runCheck { id := "c", name := "c", type := .api, url := "u" }
        5000 3 (.response 503)).error = some "Expected status 200, got 503") := by
  have h200 := runCheck_response_spec
    { id := "c", name := "c", type := .api, url := "u" } 5000 3 200
  have h503 := runCheck_response_spec
    { id := "c", name := "c", type := .api, url := "u" } 5000 3 503
  refine ⟨h200.1.mpr (by decide), h200.2.2.1 (by decide), ?_⟩
  have := h503.2.2.2 (by decide)
  simpa using this

/-- The subset of `MoltbotEnv` (`src/types.ts`) read by `dispatchAlerts`:
each field is the corresponding environment binding, `none` when unset. -/
structure MoltbotEnv where
  slackWebhookUrl : Option String := none
  telegramBotToken : Option String := none
  monitoringTelegramChatId : Option String := none
  resendApiKey : Option String := none
  resendFromEmail : Option String := none
  monitoringEmailTo : Option String := none
deriving DecidableEq, Repr

/-- The observable fate of one channel's task in `dispatchAlerts`: the
channel it went to, and whether its sender resolved (`delivered = true`)
or rejected and was caught and logged (`delivered = false`). -/
structure DispatchRecord where
  channel : AlertChannelType
  delivered : Bool
deriving DecidableEq, Repr

/-- The `.catch((err) => console.error(...))` wrapper applied to each
sender call in `dispatchAlerts`: a rejection is converted into a logged,
resolved task. -/
def caughtTask (t : AlertChannelType) (r : Except String Unit) : DispatchRecord :=
  { channel := t
    delivered := match r with
      | .ok _ => true
      | .error _ => false }

/-- `dispatchAlerts` from `src/monitoring/alerts.ts`, with the senders
abstracted: `send t` is the outcome (`.ok` = resolved, `.error` =
rejected) that the channel-`t` sender produces for this payload.  The
function returns the joined task records; it is total, so it resolves for
every sender behavior (the TypeScript promise never rejects: every task
is wrapped in `.catch`). -/
def dispatchAlerts (check : CheckConfig) (channels : List AlertChannel)
    (env : MoltbotEnv) (send : AlertChannelType → Except String Unit) :
    List DispatchRecord :=
  match channels with
  | [] => []
  | channel :: rest =>
    let tasks := dispatchAlerts check rest env send
    if shouldChannelReceive channel check then
      match channel.type with
      | .slack =>
          if env.slackWebhookUrl.isSome then
            caughtTask .slack (send .slack) :: tasks
          else tasks
      | .telegram =>
          if env.telegramBotToken.isSome
              && env.monitoringTelegramChatId.isSome then
            caughtTask .telegram (send .telegram) :: tasks
          else tasks
      | .email =>
          if env.resendApiKey.isSome && env.resendFromEmail.isSome
              && env.monitoringEmailTo.isSome then
            caughtTask .email (send .email) :: tasks
          else tasks
    else tasks

/-- C9: `dispatchAlerts` is total over sender behaviors (every rejection
is caught, so the joined promise always resolves), and the sequence of
channels the payload is dispatched to is identical for any two sender
behaviors — one channel's failure never prevents dispatch to the
others. -/
theorem dispatchAlerts_isolates_failures (check : CheckConfig)
    (channels : List AlertChannel) (env : MoltbotEnv)
    (send send' : AlertChannelType → Except String Unit) :
    (dispatchAlerts check channels env send).map DispatchRecord.channel
      = (dispatchAlerts check channels env send').map DispatchRecord.channel := by
  induction channels with
  | nil => rfl
  | cons channel rest ih =>
    unfold dispatchAlerts
    dsimp only
    by_cases hrecv : shouldChannelReceive channel check = true
    · simp only [hrecv, if_true]
      cases channel.type
      · by_cases hc : env.slackWebhookUrl.isSome = true <;>
          simp [hc, caughtTask, ih]
      · by_cases hc : (env.telegramBotToken.isSome
            && env.monitoringTelegramChatId.isSome) = true <;>
          simp [hc, caughtTask, ih]
      · by_cases hc : (env.resendApiKey.isSome && env.resendFromEmail.isSome
            && env.monitoringEmailTo.isSome) = true <;>
          simp [hc, caughtTask, ih]
    · simp only [Bool.not_eq_true] at hrecv
      simp [hrecv, ih]

/-- Modelled from the spec: the ProbeExecutor retry loop of §4.1 is not
implemented under `src/` — `runCheck` in `src/monitoring/runner.ts`
performs exactly one attempt, and `retry_count` / `retry_delay_ms` exist
only as declarations (`migrations/0001_init.sql`, `docs/MONITORING_PLAN.md`)
for the external engine.  Following the spec's words: perform one probe
attempt; on failure, retry while retry budget remains, with `retryDelayMs`
between attempts, and return the last attempt's outcome.  `attempts i` is
the outcome the network produces on attempt number `i`; the second
component records the delays slept between consecutive attempts. -/
def probeExecutorAux (attempts : Nat → CheckResult) (retryDelayMs : Nat) :
    Nat → Nat → CheckResult × List Nat
  | budget, i =>
    let out := attempts i
    if out.success then (out, [])
    else
      match budget with
      | 0 => (out, [])
      | b + 1 =>
        let rest := probeExecutorAux attempts retryDelayMs b (i + 1)
        (rest.1, retryDelayMs :: rest.2)

/-- Modelled from the spec: the ProbeExecutor contract of §4.1 — run the
probe with a retry budget of `retryCount` additional attempts, starting
from attempt 0. -/
def runProbeWithRetries (attempts : Nat → CheckResult)
    (retryCount retryDelayMs : Nat) : CheckResult × List Nat :=
  probeExecutorAux attempts retryDelayMs retryCount 0

theorem probeExecutorAux_spec (attempts : Nat → CheckResult)
    (retryDelayMs : Nat) :
    ∀ (budget i : Nat), ∃ k ≤ budget,
      probeExecutorAux attempts retryDelayMs budget i
        = (attempts (i + k), List.replicate k retryDelayMs)
      ∧ (∀ j < k, (attempts (i + j)).success = false)
      ∧ ((attempts (i + k)).success = false → k = budget) := by
  intro budget
  induction budget with
  | zero =>
    intro i
    refine ⟨0, Nat.le_refl 0, ?_, ?_, ?_⟩
    · unfold probeExecutorAux
      dsimp only
      split <;> rfl
    · intro j hj
      omega
    · intro _
      rfl
  | succ b ih =>
    intro i
    by_cases hs : (attempts i).success = true
    · refine ⟨0, Nat.zero_le _, ?_, ?_, ?_⟩
      · unfold probeExecutorAux
        simp [hs]
      · intro j hj
        omega
      · intro hfail
        rw [Nat.add_zero] at hfail
        rw [hs] at hfail
        cases hfail
    · simp only [Bool.not_eq_true] at hs
      obtain ⟨k, hk, heq, hall, hlast⟩ := ih (i + 1)
      refine ⟨k + 1, by omega, ?_, ?_, ?_⟩
      · unfold probeExecutorAux
        simp only [hs, Bool.false_eq_true, if_false]
        have harith : i + 1 + k = i + (k + 1) := by omega
        rw [heq, harith]
        rfl
      · intro j hj
        cases j with
        | zero =>
          simpa using hs
        | succ j' =>
          have : i + (j' + 1) = i + 1 + j' := by omega
          rw [this]
          exact hall j' (by omega)
      · intro hfail
        have : i + 1 + k = i + (k + 1) := by omega
        rw [← this] at hfail
        have := hlast hfail
        omega

/-- C5 (modelled from the spec, §4.1): with a retry count `n ≥ 1`, the
executor performs some number `k ≤ n` of retries beyond the first
attempt, sleeping `retryDelayMs` between consecutive attempts (`k`
delays); every attempt before the last one failed (a retry happens only
on failure, so a later success replaces an earlier failure); the returned
outcome is exactly the last attempt's outcome, with no aggregation: if it
is still a failure, the whole budget `n` was used. -/
theorem runProbeWithRetries_spec (attempts : Nat → CheckResult)
    (retryCount retryDelayMs : Nat) (_hn : 1 ≤ retryCount) :
    ∃ k ≤ retryCount,
      runProbeWithRetries attempts retryCount retryDelayMs
        = (attempts k, List.replicate k retryDelayMs)
      ∧ (∀ j < k, (attempts j).success = false)
      ∧ ((attempts k).success = false → k = retryCount) := by
  obtain ⟨k, hk, heq, hall, hlast⟩ :=
    probeExecutorAux_spec attempts retryDelayMs retryCount 0
  refine ⟨k, hk, ?_, ?_, ?_⟩
  · simpa [runProbeWithRetries] using heq
  · intro j hj
    simpa using hall j hj
  · intro hfail
    exact hlast (by simpa using hfail)

/-- A concrete attempt sequence: attempts 0 and 1 fail, attempt 2 (and
later) succeed. -/
def exampleAttempts (i : Nat) : CheckResult :=
  { id := "p"
    success := decide (2 ≤ i)
    statusCode := none
    responseTimeMs := i
    error := none }

/-- Witness for C5: two failing attempts then a success, with retry count
2: the executor returns the last attempt's outcome, all earlier attempts
failed, and the delays slept match the retries taken. -/
theorem runProbeWithRetries_spec_witness :
    (1 ≤ 2)
    ∧ ∃ k ≤ 2,
        runProbeWithRetries exampleAttempts 2 300
          = (exampleAttempts k, List.replicate k 300)
        ∧ (∀ j < k, (exampleAttempts j).success = false)
        ∧ ((exampleAttempts k).success = false → k = 2) :=
  ⟨by decide, runProbeWithRetries_spec exampleAttempts 2 300 (by decide)⟩

end Moltworker
